import Mathlib

/-!
Shallow embedding of the `datetimeng` repository (dateutil.py, US.py, EU.py).

Dates and times are modelled with `Nat` fields; `timedelta` values are
modelled as `Int` numbers of seconds.  Python `assert` statements are
modelled with an explicit `debug : Bool` flag (Python strips asserts under
`-O`), a failed assertion being `Except.error ()`.  The primitive calendar
operations (`toordinal`, date ± timedelta, field-lexicographic comparison)
model the Python `datetime` standard-library module that the repository
builds on.
-/

namespace Datetimeng

/-! ## Primitive calendar model (Python `datetime` module) -/

/-- Gregorian leap-year test, as the proleptic Gregorian calendar used by
Python's `datetime` module defines it. -/
def isLeapB (y : Nat) : Bool :=
  y % 4 == 0 && (y % 100 != 0 || y % 400 == 0)

/-- Number of days in month `m` of year `y` (months 1..12). -/
def monthLength (y m : Nat) : Nat :=
  if m = 2 then (if isLeapB y then 29 else 28)
  else if m = 4 ∨ m = 6 ∨ m = 9 ∨ m = 11 then 30 else 31

/-- Days in the months of year `y` strictly before month `k+1`. -/
def dbmAux (y : Nat) : Nat → Nat
  | 0 => 0
  | k + 1 => dbmAux y k + monthLength y (k + 1)

/-- Days in year `y` before the first day of month `m`. -/
def daysBeforeMonth (y m : Nat) : Nat := dbmAux y (m - 1)

/-- Days before January 1 of year `y` in the proleptic Gregorian calendar. -/
def daysBeforeYear (y : Nat) : Nat :=
  365 * (y - 1) + (y - 1) / 4 - (y - 1) / 100 + (y - 1) / 400

/-- Python's `date.toordinal`: day 1 is January 1 of year 1. -/
def toordinal (y m d : Nat) : Nat :=
  daysBeforeYear y + daysBeforeMonth y m + d

/-- Python's `date.weekday`: Monday = 0 .. Sunday = 6. -/
def weekdayN (y m d : Nat) : Nat := (toordinal y m d + 6) % 7

/-! ## Zone objects -/

/-- The `USTimeZone` class of US.py: a standard offset in hours and the
standard/DST abbreviations.  (`stdoff = timedelta(hours=stdhours)`.) -/
structure USTimeZone where
  stdhours : Int
  stdname : String
  dstname : String
deriving DecidableEq, Repr

/-- The `Europe` class of EU.py: a standard offset (`timedelta`, here in
seconds) and the standard/DST abbreviations. -/
structure Europe where
  offset : Int
  stdname : String
  dstname : String
deriving DecidableEq, Repr

/-- A `tzinfo` tag carried by an aware datetime.  Python compares tags by
object identity (`is`); the concrete module-level zones all differ in their
fields, so structural equality models identity faithfully for them. -/
inductive Tzinfo where
  | us (z : USTimeZone)
  | eu (z : Europe)
deriving DecidableEq, Repr

/-- Python `datetime.datetime`: numeric fields plus an optional tzinfo tag. -/
structure DateTime where
  year : Nat
  month : Nat
  day : Nat
  hour : Nat
  minute : Nat
  second : Nat
  microsecond : Nat
  tzinfo : Option Tzinfo
deriving DecidableEq, Repr

/-- Python's `dt.replace(tzinfo=None)`. -/
def stripTz (dt : DateTime) : DateTime := { dt with tzinfo := none }

/-- The tuple of numeric fields Python uses when comparing two naive
datetimes (year, month, day, hour, minute, second, microsecond). -/
def DateTime.fields (dt : DateTime) : List Nat :=
  [dt.year, dt.month, dt.day, dt.hour, dt.minute, dt.second, dt.microsecond]

/-- Python's `date.weekday` on the date part. -/
def DateTime.weekday (dt : DateTime) : Nat := weekdayN dt.year dt.month dt.day

/-- Lexicographic strict order on equal-length `Nat` lists: Python's `<`
on the field tuples of two naive datetimes. -/
def natLexLt : List Nat → List Nat → Bool
  | [], [] => false
  | [], _ :: _ => true
  | _ :: _, [] => false
  | x :: xs, y :: ys => decide (x < y) || (x == y && natLexLt xs ys)

/-- Python's `<=` on naive datetimes (total order, so `a <= b ↔ ¬ b < a`). -/
def natLexLe (xs ys : List Nat) : Bool := !(natLexLt ys xs)

/-- Python `date + timedelta(days=1)` on the date fields: month and year
roll over using the month lengths. -/
def succDate (dt : DateTime) : DateTime :=
  if dt.day < monthLength dt.year dt.month then { dt with day := dt.day + 1 }
  else if dt.month < 12 then { dt with month := dt.month + 1, day := 1 }
  else { dt with year := dt.year + 1, month := 1, day := 1 }

/-- Python `date - timedelta(days=1)` on the date fields. -/
def predDate (dt : DateTime) : DateTime :=
  if 1 < dt.day then { dt with day := dt.day - 1 }
  else if 1 < dt.month then
    { dt with month := dt.month - 1, day := monthLength dt.year (dt.month - 1) }
  else { dt with year := dt.year - 1, month := 12, day := 31 }

/-- Python `dt + timedelta(days=k)` for `k ≥ 0`; time/tzinfo unchanged. -/
def addDays : Nat → DateTime → DateTime
  | 0, dt => dt
  | k + 1, dt => addDays k (succDate dt)

/-- Python `dt - timedelta(days=k)` for `k ≥ 0`; time/tzinfo unchanged. -/
def subDays : Nat → DateTime → DateTime
  | 0, dt => dt
  | k + 1, dt => subDays k (predDate dt)

/-- Python `dt + timedelta(days=n)` for a signed number of days. -/
def shiftDays (n : Int) (dt : DateTime) : DateTime :=
  if 0 ≤ n then addDays n.toNat dt else subDays (-n).toNat dt

/-- Python `dt + timedelta(seconds=n)` for a signed whole number of
seconds: normalizes the time of day and carries whole days into the date
(microseconds and tzinfo unchanged). -/
def shiftSeconds (n : Int) (dt : DateTime) : DateTime :=
  let t : Int := (dt.hour : Int) * 3600 + (dt.minute : Int) * 60 + (dt.second : Int) + n
  let q : Int := t / 86400
  let r : Nat := (t % 86400).toNat
  let d2 := shiftDays q dt
  { d2 with hour := r / 3600, minute := (r % 3600) / 60, second := r % 60 }

/-! ## dateutil.py -/

def SUNDAY : Nat := 6
def MARCH : Nat := 3
def APRIL : Nat := 4
def OCTOBER : Nat := 10
def NOVEMBER : Nat := 11

/-- dateutil.days_in_month: `31` for December, otherwise the ordinal
difference between the first of the next month and the first of this one. -/
def days_in_month (dt : DateTime) : Nat :=
  if dt.month == 12 then 31
  else toordinal dt.year (dt.month + 1) 1 - toordinal dt.year dt.month 1

/-- dateutil.first_weekday_on_or_after: first day of kind `weekday` on or
after `dt` (time and tzinfo unchanged). -/
def first_weekday_on_or_after (weekday : Nat) (dt : DateTime) : DateTime :=
  let days_to_go : Int := ((weekday : Int) - (dt.weekday : Int)) % 7
  if days_to_go ≠ 0 then addDays days_to_go.toNat dt else dt

/-- dateutil.first_weekday_on_or_before: first day of kind `weekday` on or
before `dt` (time and tzinfo unchanged). -/
def first_weekday_on_or_before (weekday : Nat) (dt : DateTime) : DateTime :=
  let days_to_go : Int := ((dt.weekday : Int) - (weekday : Int)) % 7
  if days_to_go ≠ 0 then subDays days_to_go.toNat dt else dt

/-- dateutil.weekday_of_month: the index'th day of kind `weekday` in `dt`'s
month, index 0 the first such day, index -1 the last; too-large indices
spill over into adjacent months. -/
def weekday_of_month (weekday : Nat) (dt : DateTime) (index : Int) : DateTime :=
  if 0 ≤ index then
    shiftDays (7 * index) (first_weekday_on_or_after weekday { dt with day := 1 })
  else
    shiftDays (7 * (1 + index))
      (first_weekday_on_or_before weekday { dt with day := days_in_month dt })

/-- Validity of a Python datetime: the constructor-enforced field ranges. -/
def Wf (dt : DateTime) : Prop :=
  1 ≤ dt.year ∧ dt.year ≤ 9999 ∧ 1 ≤ dt.month ∧ dt.month ≤ 12 ∧
  1 ≤ dt.day ∧ dt.day ≤ monthLength dt.year dt.month ∧
  dt.hour ≤ 23 ∧ dt.minute ≤ 59 ∧ dt.second ≤ 59 ∧ dt.microsecond ≤ 999999

instance (dt : DateTime) : Decidable (Wf dt) := by
  unfold Wf; infer_instance

/-! ## US.py -/

/-- The `DST_Rules` class: calendar position and standard-time hour of one
DST transition.  `DST_Start` fixes `hour = 2`, `DST_End` fixes `hour = 1`. -/
structure DST_Rules where
  month : Nat
  sunday_index : Int
  hour : Nat
deriving DecidableEq, Repr

/-- The `DST_Start(month, sunday_index)` constructor (`hour = 2`). -/
def DST_Start (month : Nat) (sunday_index : Int) : DST_Rules :=
  ⟨month, sunday_index, 2⟩

/-- The `DST_End(month, sunday_index)` constructor (`hour = 1`). -/
def DST_End (month : Nat) (sunday_index : Int) : DST_Rules :=
  ⟨month, sunday_index, 1⟩

/-- The `dummy_date` stored by `DST_Rules.__init__`:
`datetime(year=1, month=month, day=1, hour=hour)`. -/
def dummyDate (r : DST_Rules) : DateTime :=
  ⟨1, r.month, 1, r.hour, 0, 0, 0, none⟩

/-- The date-time computed by `DST_Rules.date(year)` before its assertion:
`weekday_of_month(SUNDAY, dummy_date.replace(year=year), sunday_index)`. -/
def genTransition (r : DST_Rules) (year : Nat) : DateTime :=
  weekday_of_month SUNDAY { dummyDate r with year := year } r.sunday_index

/-- Python `assert cond` followed by continuation `k`: under `-O`
(`debug = false`) the assert is a no-op. -/
def guardE (debug : Bool) (cond : Bool) (k : Except Unit α) : Except Unit α :=
  if debug && !cond then .error () else k

/-- `DST_Rules.date(year)`: the transition date-time, with the method's
`assert date.month == self.dummy_date.month`. -/
def DST_Rules.date (debug : Bool) (r : DST_Rules) (year : Nat) :
    Except Unit DateTime :=
  guardE debug ((genTransition r year).month == (dummyDate r).month)
    (.ok (genTransition r year))

/-- One entry of `USTimeZone.dst_rules`: (first year, start rule, end rule). -/
abbrev Gen := Nat × DST_Rules × DST_Rules

/-- The literal `dst_rules` list as written in the class body, before the
`sort(reverse=True)` call. -/
def dst_rules_raw : List Gen :=
  [(2007, DST_Start MARCH 1, DST_End NOVEMBER 0),
   (1987, DST_Start APRIL 0, DST_End OCTOBER (-1))]

/-- One insertion step of a descending sort keyed on the first year. -/
def insertGenDesc (x : Gen) : List Gen → List Gen
  | [] => [x]
  | y :: ys => if decide (y.1 ≤ x.1) then x :: y :: ys else y :: insertGenDesc x ys

/-- Model of `dst_rules.sort(reverse=True)` (the generations' first years
are the leading tuple components and are pairwise distinct). -/
def sortGenDesc (l : List Gen) : List Gen := l.foldr insertGenDesc []

/-- The class body's construction of the rule table: it sorts the literal
list in place and cannot fail.  The `Except` result records that Python
class-body execution could in principle raise. -/
def rulesCtor (l : List Gen) : Except Unit (List Gen) := .ok (sortGenDesc l)

/-- The `USTimeZone.dst_rules` class attribute after the class body ran. -/
def USTimeZone.dst_rules : List Gen := sortGenDesc dst_rules_raw

/-- Boolean check that a generation table is ordered descending by first
valid year. -/
def isSortedDescGen : List Gen → Bool
  | [] => true
  | [_] => true
  | x :: y :: r => decide (y.1 ≤ x.1) && isSortedDescGen (y :: r)

/-- The generation-selection loop of `USTimeZone.dst`: first table entry
whose first year is `≤ year` (the table is in descending order). -/
def selectGen (year : Nat) : Option Gen :=
  USTimeZone.dst_rules.find? (fun g => decide (g.1 ≤ year))

/-- `USTimeZone.dst(dt)`: `None`/untagged inputs give a zero delta; the
zone tag is asserted to be the queried zone; the year's generation is
selected (none ⇒ zero delta); the start/end transition dates are computed
and defensively asserted; DST is active iff
`start <= dt.replace(tzinfo=None) < end`.  Deltas are in seconds. -/
def USTimeZone.dst (debug : Bool) (self : USTimeZone) (odt : Option DateTime) :
    Except Unit Int :=
  match odt with
  | none => .ok 0
  | some dt =>
    if dt.tzinfo = none then .ok 0
    else
      guardE debug (dt.tzinfo == some (Tzinfo.us self))
        (match selectGen dt.year with
         | none => .ok 0
         | some (_, dst_start, dst_end) =>
           match DST_Rules.date debug dst_start dt.year with
           | .error e => .error e
           | .ok start =>
             guardE debug (start.weekday == 6)
               (guardE debug
                 (if 2007 ≤ dt.year then decide (8 ≤ start.day) && decide (start.day ≤ 14)
                  else decide (start.day ≤ 7))
                 (match DST_Rules.date debug dst_end dt.year with
                  | .error e => .error e
                  | .ok dend =>
                    guardE debug (dend.weekday == 6)
                      (guardE debug
                        (if 2007 ≤ dt.year then decide (dend.day ≤ 7)
                         else decide (25 ≤ dend.day))
                        (if natLexLe start.fields (stripTz dt).fields &&
                            natLexLt (stripTz dt).fields dend.fields
                         then .ok 3600 else .ok 0)))))

/-- `USTimeZone.utcoffset(dt) = stdoff + dst(dt)` where
`stdoff = timedelta(hours=stdhours)`. -/
def USTimeZone.utcoffset (debug : Bool) (self : USTimeZone)
    (odt : Option DateTime) : Except Unit Int :=
  match USTimeZone.dst debug self odt with
  | .error e => .error e
  | .ok d => .ok (self.stdhours * 3600 + d)

/-- `USTimeZone.tzname(dt)`: the DST name when `dst(dt)` is non-zero. -/
def USTimeZone.tzname (debug : Bool) (self : USTimeZone)
    (odt : Option DateTime) : Except Unit String :=
  match USTimeZone.dst debug self odt with
  | .error e => .error e
  | .ok d => .ok (if d = 0 then self.stdname else self.dstname)

def Eastern : USTimeZone := ⟨-5, "EST", "EDT"⟩
def Central : USTimeZone := ⟨-6, "CST", "CDT"⟩
def Mountain : USTimeZone := ⟨-7, "MST", "MDT"⟩
def Pacific : USTimeZone := ⟨-8, "PST", "PDT"⟩

/-! ## EU.py -/

/-- `_dston = datetime(1, MARCH, 1, 1)`. -/
def eu_dston : DateTime := ⟨1, MARCH, 1, 1, 0, 0, 0, none⟩

/-- `_dstoff = datetime(1, OCTOBER, 1, 1)`. -/
def eu_dstoff : DateTime := ⟨1, OCTOBER, 1, 1, 0, 0, 0, none⟩

/-- The naive transition date `Europe.dst` computes for DST start:
the last Sunday of March of `year`, at 01:00 (naive UTC). -/
def euDstOn (year : Nat) : DateTime :=
  weekday_of_month SUNDAY { eu_dston with year := year } (-1)

/-- The naive transition date `Europe.dst` computes for DST end:
the last Sunday of October of `year`, at 01:00 (naive UTC). -/
def euDstOff (year : Nat) : DateTime :=
  weekday_of_month SUNDAY { eu_dstoff with year := year } (-1)

/-- `Europe.dst(dt)`: `None`/untagged inputs give a zero delta; the zone
tag is asserted; the input, minus the zone's standard offset, is compared
half-open against the last-Sunday 01:00-UTC transition instants of the
input's year. -/
def Europe.dst (debug : Bool) (self : Europe) (odt : Option DateTime) :
    Except Unit Int :=
  match odt with
  | none => .ok 0
  | some dt =>
    if dt.tzinfo = none then .ok 0
    else
      guardE debug (dt.tzinfo == some (Tzinfo.eu self))
        (let dt2 := shiftSeconds (-self.offset) dt
         if natLexLe (euDstOn dt.year).fields (stripTz dt2).fields &&
            natLexLt (stripTz dt2).fields (euDstOff dt.year).fields
         then .ok 3600 else .ok 0)

/-- `Europe.utcoffset(dt) = self.offset + self.dst(dt)`. -/
def Europe.utcoffset (debug : Bool) (self : Europe) (odt : Option DateTime) :
    Except Unit Int :=
  match Europe.dst debug self odt with
  | .error e => .error e
  | .ok d => .ok (self.offset + d)

/-- `Europe.tzname(dt)`: the DST name when `dst(dt)` is non-zero. -/
def Europe.tzname (debug : Bool) (self : Europe) (odt : Option DateTime) :
    Except Unit String :=
  match Europe.dst debug self odt with
  | .error e => .error e
  | .ok d => .ok (if d = 0 then self.stdname else self.dstname)

def WesternEU : Europe := ⟨0, "WET", "WEST"⟩
def CentralEU : Europe := ⟨3600, "CET", "CEST"⟩
def EasternEU : Europe := ⟨7200, "EET", "EEST"⟩
def Amsterdam : Europe := CentralEU

/-- Decidable equality for `Except` results, used to evaluate the embedded
functions on concrete inputs. -/
instance {e a : Type} [DecidableEq e] [DecidableEq a] : DecidableEq (Except e a) :=
  fun x y =>
    match x, y with
    | .ok u, .ok v =>
      if h : u = v then isTrue (by rw [h])
      else isFalse (by intro hc; cases hc; exact h rfl)
    | .error u, .error v =>
      if h : u = v then isTrue (by rw [h])
      else isFalse (by intro hc; cases hc; exact h rfl)
    | .ok _, .error _ => isFalse (by intro hc; cases hc)
    | .error _, .ok _ => isFalse (by intro hc; cases hc)

/-! ## Calendar arithmetic lemmas -/

theorem monthLength_ge_28 (y m : Nat) : 28 ≤ monthLength y m := by
  unfold monthLength
  split
  · split <;> omega
  · split <;> omega

theorem monthLength_le_31 (y m : Nat) : monthLength y m ≤ 31 := by
  unfold monthLength
  split
  · split <;> omega
  · split <;> omega

theorem addDays_day (k : Nat) : ∀ dt : DateTime,
    dt.day + k ≤ monthLength dt.year dt.month →
    addDays k dt = { dt with day := dt.day + k } := by
  induction k with
  | zero => intro dt _; rfl
  | succ n ih =>
    intro dt h
    have hlt : dt.day < monthLength dt.year dt.month := by omega
    have hsucc : succDate dt = { dt with day := dt.day + 1 } := by
      unfold succDate; rw [if_pos hlt]
    show addDays n (succDate dt) = _
    rw [hsucc, ih { dt with day := dt.day + 1 } (by simpa using by omega)]
    have : dt.day + 1 + n = dt.day + (n + 1) := by omega
    simp [this]

theorem subDays_day (k : Nat) : ∀ dt : DateTime, k < dt.day →
    subDays k dt = { dt with day := dt.day - k } := by
  induction k with
  | zero => intro dt _; simp [subDays]
  | succ n ih =>
    intro dt h
    have hpred : predDate dt = { dt with day := dt.day - 1 } := by
      unfold predDate; rw [if_pos (by omega)]
    show subDays n (predDate dt) = _
    rw [hpred, ih { dt with day := dt.day - 1 } (by simpa using by omega)]
    have : dt.day - 1 - n = dt.day - (n + 1) := by omega
    simp [this]

theorem weekdayN_lt (y m d : Nat) : weekdayN y m d < 7 :=
  Nat.mod_lt _ (by norm_num)

theorem weekdayN_add (y m d k : Nat) :
    weekdayN y m (d + k) = (weekdayN y m d + k) % 7 := by
  unfold weekdayN toordinal
  omega

theorem weekdayN_sub (y m d g : Nat) (h : g ≤ d) :
    (weekdayN y m (d - g) + g) % 7 = weekdayN y m d := by
  have := weekdayN_add y m (d - g) g
  rw [Nat.sub_add_cancel h] at this
  have hlt := weekdayN_lt y m d
  omega

theorem fwoa_eq (w : Nat) (dt : DateTime)
    (h : dt.day + 6 ≤ monthLength dt.year dt.month) :
    ∃ g : Nat, g ≤ 6 ∧
      first_weekday_on_or_after w dt = { dt with day := dt.day + g } ∧
      weekdayN dt.year dt.month (dt.day + g) = w % 7 := by
  have hwd : dt.weekday < 7 := weekdayN_lt dt.year dt.month dt.day
  have he0 : (0 : Int) ≤ ((w : Int) - (dt.weekday : Int)) % 7 :=
    Int.emod_nonneg _ (by norm_num)
  have he7 : ((w : Int) - (dt.weekday : Int)) % 7 < 7 :=
    Int.emod_lt_of_pos _ (by norm_num)
  refine ⟨(((w : Int) - (dt.weekday : Int)) % 7).toNat, by omega, ?_, ?_⟩
  · unfold first_weekday_on_or_after
    show (if ((w : Int) - (dt.weekday : Int)) % 7 ≠ 0 then
        addDays (((w : Int) - (dt.weekday : Int)) % 7).toNat dt else dt) = _
    split
    · exact addDays_day _ dt (by omega)
    · rename_i hz
      have : (((w : Int) - (dt.weekday : Int)) % 7).toNat = 0 := by omega
      rw [this]
      rfl
  · rw [weekdayN_add]
    have : DateTime.weekday dt = weekdayN dt.year dt.month dt.day := rfl
    omega

theorem fwob_eq (w : Nat) (dt : DateTime) (h7 : 7 ≤ dt.day) :
    ∃ g : Nat, g ≤ 6 ∧
      first_weekday_on_or_before w dt = { dt with day := dt.day - g } ∧
      weekdayN dt.year dt.month (dt.day - g) = w % 7 := by
  have hwd : dt.weekday < 7 := weekdayN_lt dt.year dt.month dt.day
  have he0 : (0 : Int) ≤ ((dt.weekday : Int) - (w : Int)) % 7 :=
    Int.emod_nonneg _ (by norm_num)
  have he7 : ((dt.weekday : Int) - (w : Int)) % 7 < 7 :=
    Int.emod_lt_of_pos _ (by norm_num)
  refine ⟨(((dt.weekday : Int) - (w : Int)) % 7).toNat, by omega, ?_, ?_⟩
  · unfold first_weekday_on_or_before
    show (if ((dt.weekday : Int) - (w : Int)) % 7 ≠ 0 then
        subDays (((dt.weekday : Int) - (w : Int)) % 7).toNat dt else dt) = _
    split
    · exact subDays_day _ dt (by omega)
    · rename_i hz
      have : (((dt.weekday : Int) - (w : Int)) % 7).toNat = 0 := by omega
      rw [this]
      rfl
  · have hsub := weekdayN_sub dt.year dt.month dt.day
      (((dt.weekday : Int) - (w : Int)) % 7).toNat (by omega)
    have hlt := weekdayN_lt dt.year dt.month
      (dt.day - (((dt.weekday : Int) - (w : Int)) % 7).toNat)
    have : DateTime.weekday dt = weekdayN dt.year dt.month dt.day := rfl
    omega

theorem days_in_month_eq (dt : DateTime) (h1 : 1 ≤ dt.month) (h2 : dt.month ≤ 12) :
    days_in_month dt = monthLength dt.year dt.month := by
  unfold days_in_month
  by_cases hm : dt.month = 12
  · rw [hm]; norm_num [monthLength]
  · rw [if_neg (by simpa using hm)]
    obtain ⟨m, hmeq⟩ : ∃ m, dt.month = m + 1 := ⟨dt.month - 1, by omega⟩
    rw [hmeq]
    unfold toordinal daysBeforeMonth
    have hstep : dbmAux dt.year (m + 1) = dbmAux dt.year m + monthLength dt.year (m + 1) := rfl
    simp only [Nat.add_sub_cancel]
    omega

theorem wom_nonneg (w : Nat) (dt : DateTime) (i : Int) (h : 0 ≤ i) :
    weekday_of_month w dt i =
      shiftDays (7 * i) (first_weekday_on_or_after w { dt with day := 1 }) := by
  unfold weekday_of_month
  rw [if_pos h]

theorem wom_neg (w : Nat) (dt : DateTime) (i : Int) (h : i < 0) :
    weekday_of_month w dt i =
      shiftDays (7 * (1 + i))
        (first_weekday_on_or_before w { dt with day := days_in_month dt }) := by
  unfold weekday_of_month
  rw [if_neg (by omega)]

theorem shiftDays_zero (dt : DateTime) : shiftDays 0 dt = dt := by
  unfold shiftDays
  rw [if_pos le_rfl]
  rfl

theorem shiftDays_seven (dt : DateTime) : shiftDays 7 dt = addDays 7 dt := by
  unfold shiftDays
  rw [if_pos (by norm_num)]
  rfl

theorem wom_zero_spec (w : Nat) (hw : w < 7) (dt : DateTime) :
    ∃ d : Nat, 1 ≤ d ∧ d ≤ 7 ∧
      weekday_of_month w dt 0 = { dt with day := d } ∧
      weekdayN dt.year dt.month d = w := by
  have h28 := monthLength_ge_28 dt.year dt.month
  obtain ⟨g, hg, heq, hwk⟩ := fwoa_eq w { dt with day := 1 }
    (by show 1 + 6 ≤ monthLength dt.year dt.month; omega)
  have heq2 : first_weekday_on_or_after w { dt with day := 1 } =
      { dt with day := 1 + g } := heq
  have hwk2 : weekdayN dt.year dt.month (1 + g) = w % 7 := hwk
  refine ⟨1 + g, by omega, by omega, ?_, ?_⟩
  · rw [wom_nonneg w dt 0 le_rfl, show (7 * 0 : Int) = 0 from rfl, shiftDays_zero, heq2]
  · rw [Nat.mod_eq_of_lt hw] at hwk2; exact hwk2

theorem wom_one_spec (w : Nat) (hw : w < 7) (dt : DateTime) :
    ∃ d : Nat, 8 ≤ d ∧ d ≤ 14 ∧
      weekday_of_month w dt 1 = { dt with day := d } ∧
      weekdayN dt.year dt.month d = w := by
  have h28 := monthLength_ge_28 dt.year dt.month
  obtain ⟨g, hg, heq, hwk⟩ := fwoa_eq w { dt with day := 1 }
    (by show 1 + 6 ≤ monthLength dt.year dt.month; omega)
  have heq2 : first_weekday_on_or_after w { dt with day := 1 } =
      { dt with day := 1 + g } := heq
  have hwk2 : weekdayN dt.year dt.month (1 + g) = w % 7 := hwk
  refine ⟨1 + g + 7, by omega, by omega, ?_, ?_⟩
  · rw [wom_nonneg w dt 1 (by norm_num), show (7 * 1 : Int) = 7 from rfl,
      shiftDays_seven, heq2,
      addDays_day 7 { dt with day := 1 + g }
        (by show 1 + g + 7 ≤ monthLength dt.year dt.month; omega)]
  · rw [weekdayN_add dt.year dt.month (1 + g) 7]
    have hlt := weekdayN_lt dt.year dt.month (1 + g)
    omega

theorem wom_neg_one_spec (w : Nat) (hw : w < 7) (dt : DateTime)
    (h1 : 1 ≤ dt.month) (h2 : dt.month ≤ 12) :
    ∃ d : Nat, monthLength dt.year dt.month - 6 ≤ d ∧
      d ≤ monthLength dt.year dt.month ∧
      weekday_of_month w dt (-1) = { dt with day := d } ∧
      weekdayN dt.year dt.month d = w := by
  have h28 := monthLength_ge_28 dt.year dt.month
  have hdm := days_in_month_eq dt h1 h2
  obtain ⟨g, hg, heq, hwk⟩ := fwob_eq w { dt with day := days_in_month dt }
    (by show 7 ≤ days_in_month dt; omega)
  have heq2 : first_weekday_on_or_before w { dt with day := days_in_month dt } =
      { dt with day := days_in_month dt - g } := heq
  have hwk2 : weekdayN dt.year dt.month (days_in_month dt - g) = w % 7 := hwk
  refine ⟨days_in_month dt - g, by omega, by omega, ?_, ?_⟩
  · rw [wom_neg w dt (-1) (by norm_num), show (7 * (1 + -1) : Int) = 0 from rfl,
      shiftDays_zero, heq2]
  · rw [Nat.mod_eq_of_lt hw] at hwk2; exact hwk2

theorem monthLength_oct (y : Nat) : monthLength y 10 = 31 := by
  norm_num [monthLength]

theorem start2007_spec (y : Nat) : ∃ d : Nat, 8 ≤ d ∧ d ≤ 14 ∧
    genTransition (DST_Start MARCH 1) y = ⟨y, 3, d, 2, 0, 0, 0, none⟩ ∧
    weekdayN y 3 d = 6 := by
  obtain ⟨d, h1, h2, heq, hwk⟩ := wom_one_spec 6 (by norm_num) ⟨y, 3, 1, 2, 0, 0, 0, none⟩
  exact ⟨d, h1, h2, heq, hwk⟩

theorem start1987_spec (y : Nat) : ∃ d : Nat, 1 ≤ d ∧ d ≤ 7 ∧
    genTransition (DST_Start APRIL 0) y = ⟨y, 4, d, 2, 0, 0, 0, none⟩ ∧
    weekdayN y 4 d = 6 := by
  obtain ⟨d, h1, h2, heq, hwk⟩ := wom_zero_spec 6 (by norm_num) ⟨y, 4, 1, 2, 0, 0, 0, none⟩
  exact ⟨d, h1, h2, heq, hwk⟩

theorem end2007_spec (y : Nat) : ∃ d : Nat, 1 ≤ d ∧ d ≤ 7 ∧
    genTransition (DST_End NOVEMBER 0) y = ⟨y, 11, d, 1, 0, 0, 0, none⟩ ∧
    weekdayN y 11 d = 6 := by
  obtain ⟨d, h1, h2, heq, hwk⟩ := wom_zero_spec 6 (by norm_num) ⟨y, 11, 1, 1, 0, 0, 0, none⟩
  exact ⟨d, h1, h2, heq, hwk⟩

theorem end1987_spec (y : Nat) : ∃ d : Nat, 25 ≤ d ∧ d ≤ 31 ∧
    genTransition (DST_End OCTOBER (-1)) y = ⟨y, 10, d, 1, 0, 0, 0, none⟩ ∧
    weekdayN y 10 d = 6 := by
  obtain ⟨d, h1, h2, heq, hwk⟩ := wom_neg_one_spec 6 (by norm_num)
    ⟨y, 10, 1, 1, 0, 0, 0, none⟩ (by norm_num) (by norm_num)
  have h31 : monthLength y 10 = 31 := monthLength_oct y
  exact ⟨d, by simp [h31] at h1 h2 ⊢; omega, by simp [h31] at h1 h2 ⊢; omega, heq, hwk⟩

theorem selectGen_eq (y : Nat) :
    selectGen y =
      if 2007 ≤ y then some (2007, DST_Start MARCH 1, DST_End NOVEMBER 0)
      else if 1987 ≤ y then some (1987, DST_Start APRIL 0, DST_End OCTOBER (-1))
      else none := by
  have hr : USTimeZone.dst_rules =
      [(2007, DST_Start MARCH 1, DST_End NOVEMBER 0),
       (1987, DST_Start APRIL 0, DST_End OCTOBER (-1))] := rfl
  unfold selectGen
  rw [hr]
  by_cases h1 : 2007 ≤ y
  · simp [List.find?, h1]
  · by_cases h2 : 1987 ≤ y <;> simp [List.find?, h1, h2]

theorem guardE_true {α : Type} (debug : Bool) (k : Except Unit α) :
    guardE debug true k = k := by
  simp [guardE]

theorem stripTz_fields (dt : DateTime) : (stripTz dt).fields = dt.fields := rfl

/-- The value `USTimeZone.dst` computes once its assertions are known to
hold: zero if no generation covers the year, otherwise the half-open
interval test against the generation's transition dates. -/
def dstVal (dt : DateTime) : Int :=
  match selectGen dt.year with
  | none => 0
  | some g =>
    if natLexLe (genTransition g.2.1 dt.year).fields (stripTz dt).fields &&
       natLexLt (stripTz dt).fields (genTransition g.2.2 dt.year).fields
    then 3600 else 0

theorem dst_eval (debug : Bool) (self : USTimeZone) (dt : DateTime)
    (htz : dt.tzinfo = some (Tzinfo.us self)) :
    USTimeZone.dst debug self (some dt) = .ok (dstVal dt) := by
  simp only [USTimeZone.dst, dstVal, htz]
  rw [if_neg (by simp)]
  have hbeq : (some (Tzinfo.us self) == some (Tzinfo.us self)) = true := by simp
  rw [hbeq, guardE_true]
  by_cases h07 : 2007 ≤ dt.year
  · rw [selectGen_eq dt.year, if_pos h07]
    obtain ⟨ds, hds8, hds14, hdseq, hdsw⟩ := start2007_spec dt.year
    obtain ⟨de, hde1, hde7, hdeeq, hdew⟩ := end2007_spec dt.year
    simp only [DST_Rules.date, hdseq, hdeeq]
    have hm1 : ((⟨dt.year, 3, ds, 2, 0, 0, 0, none⟩ : DateTime).month ==
        (dummyDate (DST_Start MARCH 1)).month) = true := by rfl
    have hm2 : ((⟨dt.year, 11, de, 1, 0, 0, 0, none⟩ : DateTime).month ==
        (dummyDate (DST_End NOVEMBER 0)).month) = true := by rfl
    rw [hm1, hm2, guardE_true, guardE_true]
    have hw1 : ((⟨dt.year, 3, ds, 2, 0, 0, 0, none⟩ : DateTime).weekday == 6) = true := by
      show (weekdayN dt.year 3 ds == 6) = true
      simp [hdsw]
    have hw2 : ((⟨dt.year, 11, de, 1, 0, 0, 0, none⟩ : DateTime).weekday == 6) = true := by
      show (weekdayN dt.year 11 de == 6) = true
      simp [hdew]
    simp only [hw1, hw2, guardE_true, if_pos h07]
    have hd1 : (decide (8 ≤ (⟨dt.year, 3, ds, 2, 0, 0, 0, none⟩ : DateTime).day) &&
        decide ((⟨dt.year, 3, ds, 2, 0, 0, 0, none⟩ : DateTime).day ≤ 14)) = true := by
      simp
      omega
    have hd2 : decide ((⟨dt.year, 11, de, 1, 0, 0, 0, none⟩ : DateTime).day ≤ 7) = true := by
      simp
      omega
    rw [hd1, hd2, guardE_true, guardE_true]
    cases hC : (natLexLe (⟨dt.year, 3, ds, 2, 0, 0, 0, none⟩ : DateTime).fields
        (stripTz dt).fields &&
        natLexLt (stripTz dt).fields
          (⟨dt.year, 11, de, 1, 0, 0, 0, none⟩ : DateTime).fields) <;>
      simp [hC]
  · by_cases h87 : 1987 ≤ dt.year
    · rw [selectGen_eq dt.year, if_neg h07, if_pos h87]
      obtain ⟨ds, hds1, hds7, hdseq, hdsw⟩ := start1987_spec dt.year
      obtain ⟨de, hde25, hde31, hdeeq, hdew⟩ := end1987_spec dt.year
      simp only [DST_Rules.date, hdseq, hdeeq]
      have hm1 : ((⟨dt.year, 4, ds, 2, 0, 0, 0, none⟩ : DateTime).month ==
          (dummyDate (DST_Start APRIL 0)).month) = true := by rfl
      have hm2 : ((⟨dt.year, 10, de, 1, 0, 0, 0, none⟩ : DateTime).month ==
          (dummyDate (DST_End OCTOBER (-1))).month) = true := by rfl
      rw [hm1, hm2, guardE_true, guardE_true]
      have hw1 : ((⟨dt.year, 4, ds, 2, 0, 0, 0, none⟩ : DateTime).weekday == 6) = true := by
        show (weekdayN dt.year 4 ds == 6) = true
        simp [hdsw]
      have hw2 : ((⟨dt.year, 10, de, 1, 0, 0, 0, none⟩ : DateTime).weekday == 6) = true := by
        show (weekdayN dt.year 10 de == 6) = true
        simp [hdew]
      simp only [hw1, hw2, guardE_true, if_neg h07]
      have hd1 : decide ((⟨dt.year, 4, ds, 2, 0, 0, 0, none⟩ : DateTime).day ≤ 7) = true := by
        simp
        omega
      have hd2 : decide (25 ≤ (⟨dt.year, 10, de, 1, 0, 0, 0, none⟩ : DateTime).day) = true := by
        simp
        omega
      rw [hd1, hd2, guardE_true, guardE_true]
      cases hC : (natLexLe (⟨dt.year, 4, ds, 2, 0, 0, 0, none⟩ : DateTime).fields
          (stripTz dt).fields &&
          natLexLt (stripTz dt).fields
            (⟨dt.year, 10, de, 1, 0, 0, 0, none⟩ : DateTime).fields) <;>
        simp [hC]
    · rw [selectGen_eq dt.year, if_neg h07, if_neg h87]

theorem guardE_false {α : Type} (c : Bool) (k : Except Unit α) :
    guardE false c k = k := by
  simp [guardE]

theorem eu_dst_eval (debug : Bool) (self : Europe) (dt : DateTime)
    (htz : dt.tzinfo = some (Tzinfo.eu self)) :
    Europe.dst debug self (some dt) =
      .ok (if natLexLe (euDstOn dt.year).fields
              (stripTz (shiftSeconds (-self.offset) dt)).fields &&
            natLexLt (stripTz (shiftSeconds (-self.offset) dt)).fields
              (euDstOff dt.year).fields
           then 3600 else 0) := by
  simp only [Europe.dst, htz]
  rw [if_neg (by simp)]
  have hbeq : (some (Tzinfo.eu self) == some (Tzinfo.eu self)) = true := by simp
  rw [hbeq, guardE_true]
  cases hC : (natLexLe (euDstOn dt.year).fields
      (stripTz (shiftSeconds (-self.offset) dt)).fields &&
      natLexLt (stripTz (shiftSeconds (-self.offset) dt)).fields
        (euDstOff dt.year).fields) <;>
    simp [hC]

theorem dst_false_ok (self : USTimeZone) (odt : Option DateTime) :
    ∃ v : Int, USTimeZone.dst false self odt = .ok v := by
  rcases odt with _ | dt
  · exact ⟨0, rfl⟩
  · simp only [USTimeZone.dst]
    by_cases htz : dt.tzinfo = none
    · rw [if_pos htz]; exact ⟨0, rfl⟩
    · rw [if_neg htz, guardE_false]
      rcases hsel : selectGen dt.year with _ | ⟨fy, rs, re⟩
      · exact ⟨0, rfl⟩
      · simp only [DST_Rules.date, guardE_false]
        cases hC : (natLexLe (genTransition rs dt.year).fields (stripTz dt).fields &&
            natLexLt (stripTz dt).fields (genTransition re dt.year).fields)
        · exact ⟨0, by simp [hC]⟩
        · exact ⟨3600, by simp [hC]⟩

theorem eu_dst_false_ok (self : Europe) (odt : Option DateTime) :
    ∃ v : Int, Europe.dst false self odt = .ok v := by
  rcases odt with _ | dt
  · exact ⟨0, rfl⟩
  · simp only [Europe.dst]
    by_cases htz : dt.tzinfo = none
    · rw [if_pos htz]; exact ⟨0, rfl⟩
    · rw [if_neg htz, guardE_false]
      cases hC : (natLexLe (euDstOn dt.year).fields
          (stripTz (shiftSeconds (-self.offset) dt)).fields &&
          natLexLt (stripTz (shiftSeconds (-self.offset) dt)).fields
            (euDstOff dt.year).fields)
      · exact ⟨0, by simp [hC]⟩
      · exact ⟨3600, by simp [hC]⟩

theorem dst_mismatch_us (self : USTimeZone) (dt : DateTime) (t : Tzinfo)
    (htz : dt.tzinfo = some t) (hne : t ≠ Tzinfo.us self) :
    USTimeZone.dst true self (some dt) = .error () := by
  simp only [USTimeZone.dst, htz]
  rw [if_neg (by simp)]
  have hb : (some t == some (Tzinfo.us self)) = false := by
    simp [hne]
  rw [hb]
  rfl

theorem dst_mismatch_eu (self : Europe) (dt : DateTime) (t : Tzinfo)
    (htz : dt.tzinfo = some t) (hne : t ≠ Tzinfo.eu self) :
    Europe.dst true self (some dt) = .error () := by
  simp only [Europe.dst, htz]
  rw [if_neg (by simp)]
  have hb : (some t == some (Tzinfo.eu self)) = false := by
    simp [hne]
  rw [hb]
  rfl

theorem insertGenDesc_sorted (x : Gen) : ∀ l : List Gen,
    isSortedDescGen l = true → isSortedDescGen (insertGenDesc x l) = true := by
  intro l
  induction l with
  | nil => intro _; rfl
  | cons y ys ih =>
    intro hs
    unfold insertGenDesc
    by_cases hxy : y.1 ≤ x.1
    · rw [if_pos (by simpa using hxy)]
      show (decide (y.1 ≤ x.1) && isSortedDescGen (y :: ys)) = true
      simp [hxy, hs]
    · rw [if_neg (by simpa using hxy)]
      cases ys with
      | nil =>
        show (decide (x.1 ≤ y.1) && true) = true
        simp
        omega
      | cons z zs =>
        have hzy : z.1 ≤ y.1 ∧ isSortedDescGen (z :: zs) = true := by
          have := hs
          simp [isSortedDescGen] at this
          exact ⟨this.1, this.2⟩
        have hins := ih hzy.2
        unfold insertGenDesc
        by_cases hzx : z.1 ≤ x.1
        · rw [if_pos (by simpa using hzx)]
          show (decide (x.1 ≤ y.1) && (decide (z.1 ≤ x.1) && isSortedDescGen (z :: zs))) = true
          simp [hzy.2]
          omega
        · rw [if_neg (by simpa using hzx)]
          show (decide (z.1 ≤ y.1) && isSortedDescGen (z :: insertGenDesc x zs)) = true
          have : insertGenDesc x (z :: zs) = z :: insertGenDesc x zs := by
            simp only [insertGenDesc]
            rw [if_neg (by simpa using hzx)]
          rw [← this]
          simp [hins]
          omega

theorem insertGenDesc_perm (x : Gen) : ∀ l : List Gen,
    List.Perm (insertGenDesc x l) (x :: l) := by
  intro l
  induction l with
  | nil => exact List.Perm.refl _
  | cons y ys ih =>
    unfold insertGenDesc
    by_cases hxy : y.1 ≤ x.1
    · rw [if_pos (by simpa using hxy)]
    · rw [if_neg (by simpa using hxy)]
      exact (ih.cons y).trans (List.Perm.swap x y ys)

theorem sortGenDesc_sorted (l : List Gen) : isSortedDescGen (sortGenDesc l) = true := by
  induction l with
  | nil => rfl
  | cons y ys ih => exact insertGenDesc_sorted y (sortGenDesc ys) ih

theorem sortGenDesc_perm (l : List Gen) : List.Perm (sortGenDesc l) l := by
  induction l with
  | nil => exact List.Perm.refl _
  | cons y ys ih => exact (insertGenDesc_perm y (sortGenDesc ys)).trans (ih.cons y)

/-- The time-of-day and tag fields of a datetime, which the date-arithmetic
helpers never touch. -/
def timeOf (dt : DateTime) : Nat × Nat × Nat × Nat × Option Tzinfo :=
  (dt.hour, dt.minute, dt.second, dt.microsecond, dt.tzinfo)

theorem timeOf_succDate (dt : DateTime) : timeOf (succDate dt) = timeOf dt := by
  unfold succDate
  split
  · rfl
  · split <;> rfl

theorem timeOf_predDate (dt : DateTime) : timeOf (predDate dt) = timeOf dt := by
  unfold predDate
  split
  · rfl
  · split <;> rfl

theorem timeOf_addDays (k : Nat) : ∀ dt : DateTime, timeOf (addDays k dt) = timeOf dt := by
  induction k with
  | zero => intro dt; rfl
  | succ n ih => intro dt; exact (ih (succDate dt)).trans (timeOf_succDate dt)

theorem timeOf_subDays (k : Nat) : ∀ dt : DateTime, timeOf (subDays k dt) = timeOf dt := by
  induction k with
  | zero => intro dt; rfl
  | succ n ih => intro dt; exact (ih (predDate dt)).trans (timeOf_predDate dt)

theorem timeOf_shiftDays (n : Int) (dt : DateTime) : timeOf (shiftDays n dt) = timeOf dt := by
  unfold shiftDays
  split
  · exact timeOf_addDays _ dt
  · exact timeOf_subDays _ dt

theorem timeOf_fwoa (w : Nat) (dt : DateTime) :
    timeOf (first_weekday_on_or_after w dt) = timeOf dt := by
  show timeOf (if ((w : Int) - (dt.weekday : Int)) % 7 ≠ 0 then
      addDays (((w : Int) - (dt.weekday : Int)) % 7).toNat dt else dt) = timeOf dt
  split
  · exact timeOf_addDays _ dt
  · rfl

theorem timeOf_fwob (w : Nat) (dt : DateTime) :
    timeOf (first_weekday_on_or_before w dt) = timeOf dt := by
  show timeOf (if ((dt.weekday : Int) - (w : Int)) % 7 ≠ 0 then
      subDays (((dt.weekday : Int) - (w : Int)) % 7).toNat dt else dt) = timeOf dt
  split
  · exact timeOf_subDays _ dt
  · rfl

theorem timeOf_wom (w : Nat) (dt : DateTime) (i : Int) :
    timeOf (weekday_of_month w dt i) = timeOf dt := by
  unfold weekday_of_month
  split
  · exact (timeOf_shiftDays _ _).trans (timeOf_fwoa w { dt with day := 1 })
  · exact (timeOf_shiftDays _ _).trans
      (timeOf_fwob w { dt with day := days_in_month dt })

theorem genTransition_time (r : DST_Rules) (y : Nat) :
    timeOf (genTransition r y) = (r.hour, 0, 0, 0, none) :=
  timeOf_wom SUNDAY { dummyDate r with year := y } r.sunday_index

theorem genTransition_hour (r : DST_Rules) (y : Nat) :
    (genTransition r y).hour = r.hour :=
  congrArg (fun p => p.1) (genTransition_time r y)

theorem natLexLt_pad (a b c d x1 x2 x3 : Nat) :
    natLexLt [a, b, c, d, x1, x2, x3] [a, b, c, d, 0, 0, 0] = false := by
  simp [natLexLt]

theorem natLexLt_snd (a b b2 : Nat) (r r2 : List Nat) (h : b < b2) :
    natLexLt (a :: b :: r) (a :: b2 :: r2) = true := by
  simp [natLexLt, h]

theorem shiftDays_nonpos (n : Int) (h : n ≤ 0) (dt : DateTime) :
    shiftDays n dt = subDays (-n).toNat dt := by
  unfold shiftDays
  by_cases h0 : 0 ≤ n
  · have hn : n = 0 := le_antisymm h h0
    subst hn
    norm_num
    rfl
  · rw [if_neg h0]

theorem monthLength_mar (y : Nat) : monthLength y 3 = 31 := by
  norm_num [monthLength]

set_option maxRecDepth 8000

/-- C1: for every aware datetime tagged with a `USTimeZone` whose year is
covered by a rule generation, `dst` returns the one-hour delta exactly when
the tag-stripped input lies in the half-open interval from the selected
generation's start-rule transition (at wall-clock 02:00 standard time) to
its end-rule transition (at 01:00); a `None` or untagged input yields a
zero delta; `utcoffset` is the standard offset plus `dst`, and `tzname` is
the DST name exactly when `dst` is non-zero. -/
theorem claim_C1 (debug : Bool) (self : USTimeZone) (dt : DateTime)
    (htz : dt.tzinfo = some (Tzinfo.us self)) (hy : 1987 ≤ dt.year) :
    (∃ g : Gen, selectGen dt.year = some g ∧
      (genTransition g.2.1 dt.year).hour = 2 ∧
      (genTransition g.2.2 dt.year).hour = 1 ∧
      (USTimeZone.dst debug self (some dt) = .ok 3600 ↔
        (natLexLe (genTransition g.2.1 dt.year).fields (stripTz dt).fields = true ∧
         natLexLt (stripTz dt).fields (genTransition g.2.2 dt.year).fields = true))) ∧
    USTimeZone.dst debug self none = .ok 0 ∧
    (∀ dt2 : DateTime, dt2.tzinfo = none →
      USTimeZone.dst debug self (some dt2) = .ok 0) ∧
    (∀ (odt : Option DateTime) (v : Int), USTimeZone.dst debug self odt = .ok v →
      USTimeZone.utcoffset debug self odt = .ok (self.stdhours * 3600 + v) ∧
      USTimeZone.tzname debug self odt =
        .ok (if v = 0 then self.stdname else self.dstname)) := by
  refine ⟨?_, rfl, ?_, ?_⟩
  · have hd := dst_eval debug self dt htz
    by_cases h07 : 2007 ≤ dt.year
    · have hsel : selectGen dt.year = some (2007, DST_Start MARCH 1, DST_End NOVEMBER 0) := by
        rw [selectGen_eq, if_pos h07]
      refine ⟨(2007, DST_Start MARCH 1, DST_End NOVEMBER 0), hsel,
        genTransition_hour _ dt.year, genTransition_hour _ dt.year, ?_⟩
      rw [hd]
      unfold dstVal
      rw [hsel]
      cases hC : (natLexLe (genTransition (DST_Start MARCH 1) dt.year).fields
          (stripTz dt).fields &&
          natLexLt (stripTz dt).fields
            (genTransition (DST_End NOVEMBER 0) dt.year).fields) with
      | false =>
        simp only [hC, Bool.false_eq_true, if_false]
        constructor
        · intro h
          exact absurd h (by simp)
        · rintro ⟨h1, h2⟩
          rw [h1, h2] at hC
          simp at hC
      | true =>
        simp only [hC, if_true]
        have := Bool.and_eq_true_iff.mp hC
        simp [this.1, this.2]
    · have h87 := hy
      have hsel : selectGen dt.year = some (1987, DST_Start APRIL 0, DST_End OCTOBER (-1)) := by
        rw [selectGen_eq, if_neg h07, if_pos h87]
      refine ⟨(1987, DST_Start APRIL 0, DST_End OCTOBER (-1)), hsel,
        genTransition_hour _ dt.year, genTransition_hour _ dt.year, ?_⟩
      rw [hd]
      unfold dstVal
      rw [hsel]
      cases hC : (natLexLe (genTransition (DST_Start APRIL 0) dt.year).fields
          (stripTz dt).fields &&
          natLexLt (stripTz dt).fields
            (genTransition (DST_End OCTOBER (-1)) dt.year).fields) with
      | false =>
        simp only [hC, Bool.false_eq_true, if_false]
        constructor
        · intro h
          exact absurd h (by simp)
        · rintro ⟨h1, h2⟩
          rw [h1, h2] at hC
          simp at hC
      | true =>
        simp only [hC, if_true]
        have := Bool.and_eq_true_iff.mp hC
        simp [this.1, this.2]
  · intro dt2 h2
    simp only [USTimeZone.dst]
    rw [if_pos h2]
  · intro odt v h
    constructor
    · simp only [USTimeZone.utcoffset, h]
    · simp only [USTimeZone.tzname, h]

/-- Witness for C1 at a concrete covered Eastern datetime. -/
theorem claim_C1_witness : USTimeZone.dst true Eastern none = .ok 0 :=
  (claim_C1 true Eastern ⟨2002, 7, 4, 12, 0, 0, 0, some (Tzinfo.us Eastern)⟩
    rfl (by norm_num)).2.1

/-- C2: for every aware datetime tagged with a `Europe` zone, `dst` returns
one hour exactly when the input minus the zone's standard offset (never the
DST component) lies half-open between the last-Sunday-of-March and
last-Sunday-of-October transition instants at 01:00 naive UTC of the
input's year; concretely, for Amsterdam local 2002-10-27 01:00:00 resolves
to DST (+02:00, the instant 2002-10-26 23:00 UTC) and local 2002-10-27
02:00:00 resolves to standard (+01:00, the instant 2002-10-27 01:00 UTC). -/
theorem claim_C2 (debug : Bool) (self : Europe) (dt : DateTime)
    (htz : dt.tzinfo = some (Tzinfo.eu self)) :
    (Europe.dst debug self (some dt) = .ok 3600 ↔
      (natLexLe (euDstOn dt.year).fields
          (stripTz (shiftSeconds (-self.offset) dt)).fields = true ∧
       natLexLt (stripTz (shiftSeconds (-self.offset) dt)).fields
          (euDstOff dt.year).fields = true)) ∧
    ((euDstOn dt.year).year = dt.year ∧ (euDstOn dt.year).month = 3 ∧
      (euDstOn dt.year).hour = 1 ∧ (euDstOn dt.year).minute = 0 ∧
      (euDstOn dt.year).second = 0 ∧ (euDstOn dt.year).weekday = 6 ∧
      monthLength dt.year 3 < (euDstOn dt.year).day + 7 ∧
      (euDstOn dt.year).day ≤ monthLength dt.year 3) ∧
    ((euDstOff dt.year).year = dt.year ∧ (euDstOff dt.year).month = 10 ∧
      (euDstOff dt.year).hour = 1 ∧ (euDstOff dt.year).minute = 0 ∧
      (euDstOff dt.year).second = 0 ∧ (euDstOff dt.year).weekday = 6 ∧
      monthLength dt.year 10 < (euDstOff dt.year).day + 7 ∧
      (euDstOff dt.year).day ≤ monthLength dt.year 10) ∧
    (Europe.utcoffset debug Amsterdam
        (some ⟨2002, 10, 27, 1, 0, 0, 0, some (Tzinfo.eu Amsterdam)⟩) = .ok 7200 ∧
      Europe.tzname debug Amsterdam
        (some ⟨2002, 10, 27, 1, 0, 0, 0, some (Tzinfo.eu Amsterdam)⟩) = .ok "CEST" ∧
      stripTz (shiftSeconds (-7200)
        ⟨2002, 10, 27, 1, 0, 0, 0, some (Tzinfo.eu Amsterdam)⟩) =
        ⟨2002, 10, 26, 23, 0, 0, 0, none⟩) ∧
    (Europe.utcoffset debug Amsterdam
        (some ⟨2002, 10, 27, 2, 0, 0, 0, some (Tzinfo.eu Amsterdam)⟩) = .ok 3600 ∧
      Europe.tzname debug Amsterdam
        (some ⟨2002, 10, 27, 2, 0, 0, 0, some (Tzinfo.eu Amsterdam)⟩) = .ok "CET" ∧
      stripTz (shiftSeconds (-3600)
        ⟨2002, 10, 27, 2, 0, 0, 0, some (Tzinfo.eu Amsterdam)⟩) =
        ⟨2002, 10, 27, 1, 0, 0, 0, none⟩) := by
  refine ⟨?_, ?_, ?_, ?_, ?_⟩
  · rw [eu_dst_eval debug self dt htz]
    cases hC : (natLexLe (euDstOn dt.year).fields
        (stripTz (shiftSeconds (-self.offset) dt)).fields &&
        natLexLt (stripTz (shiftSeconds (-self.offset) dt)).fields
          (euDstOff dt.year).fields) with
    | false =>
      simp only [hC, Bool.false_eq_true, if_false]
      constructor
      · intro h
        exact absurd h (by simp)
      · rintro ⟨h1, h2⟩
        rw [h1, h2] at hC
        simp at hC
    | true =>
      simp only [hC, if_true]
      have := Bool.and_eq_true_iff.mp hC
      simp [this.1, this.2]
  · obtain ⟨d, hd1, hd2, heq, hwk⟩ := wom_neg_one_spec 6 (by norm_num)
      ⟨dt.year, 3, 1, 1, 0, 0, 0, none⟩ (by norm_num) (by norm_num)
    have heq2 : euDstOn dt.year = ⟨dt.year, 3, d, 1, 0, 0, 0, none⟩ := heq
    have h31 : monthLength dt.year 3 = 31 := monthLength_mar dt.year
    rw [heq2]
    refine ⟨rfl, rfl, rfl, rfl, rfl, hwk, ?_, ?_⟩ <;>
      (rw [h31] at hd1 hd2 ⊢; dsimp only; omega)
  · obtain ⟨d, hd1, hd2, heq, hwk⟩ := wom_neg_one_spec 6 (by norm_num)
      ⟨dt.year, 10, 1, 1, 0, 0, 0, none⟩ (by norm_num) (by norm_num)
    have heq2 : euDstOff dt.year = ⟨dt.year, 10, d, 1, 0, 0, 0, none⟩ := heq
    have h31 : monthLength dt.year 10 = 31 := monthLength_oct dt.year
    rw [heq2]
    refine ⟨rfl, rfl, rfl, rfl, rfl, hwk, ?_, ?_⟩ <;>
      (rw [h31] at hd1 hd2 ⊢; dsimp only; omega)
  · cases debug <;> exact ⟨by decide, by decide, by decide⟩
  · cases debug <;> exact ⟨by decide, by decide, by decide⟩

/-- Witness for C2 at Amsterdam on the 2002 fall-back day. -/
theorem claim_C2_witness : (euDstOn 2002).month = 3 :=
  (claim_C2 true CentralEU ⟨2002, 10, 27, 1, 0, 0, 0, some (Tzinfo.eu CentralEU)⟩
    rfl).2.1.2.1

/-- C3: every Eastern-tagged datetime on 2002-10-27 with wall-clock hour 1
(the fall-back fold hour) resolves to standard time: zero DST delta, UTC
offset -05:00 (-18000 s), name "EST". -/
theorem claim_C3 (debug : Bool) (mi s u : Nat)
    (hmi : mi ≤ 59) (hs : s ≤ 59) (hu : u ≤ 999999) :
    USTimeZone.dst debug Eastern
      (some ⟨2002, 10, 27, 1, mi, s, u, some (Tzinfo.us Eastern)⟩) = .ok 0 ∧
    USTimeZone.utcoffset debug Eastern
      (some ⟨2002, 10, 27, 1, mi, s, u, some (Tzinfo.us Eastern)⟩) = .ok (-18000) ∧
    USTimeZone.tzname debug Eastern
      (some ⟨2002, 10, 27, 1, mi, s, u, some (Tzinfo.us Eastern)⟩) = .ok "EST" := by
  have hd := dst_eval debug Eastern
    ⟨2002, 10, 27, 1, mi, s, u, some (Tzinfo.us Eastern)⟩ rfl
  have hsel : selectGen 2002 = some (1987, DST_Start APRIL 0, DST_End OCTOBER (-1)) := by
    rw [selectGen_eq]
    norm_num
  have hend : genTransition (DST_End OCTOBER (-1)) 2002 =
      ⟨2002, 10, 27, 1, 0, 0, 0, none⟩ := by decide
  have hval : dstVal ⟨2002, 10, 27, 1, mi, s, u, some (Tzinfo.us Eastern)⟩ = 0 := by
    unfold dstVal
    dsimp only
    rw [hsel]
    dsimp only
    rw [hend]
    have hlt : natLexLt [2002, 10, 27, 1, mi, s, u] [2002, 10, 27, 1, 0, 0, 0] = false :=
      natLexLt_pad 2002 10 27 1 mi s u
    show (if (natLexLe (genTransition (DST_Start APRIL 0) 2002).fields
        [2002, 10, 27, 1, mi, s, u] &&
        natLexLt [2002, 10, 27, 1, mi, s, u] [2002, 10, 27, 1, 0, 0, 0]) = true
      then (3600 : Int) else 0) = 0
    rw [hlt, Bool.and_false]
    rfl
  rw [hval] at hd
  refine ⟨hd, ?_, ?_⟩
  · simp only [USTimeZone.utcoffset, hd]
    norm_num [Eastern]
  · simp only [USTimeZone.tzname, hd]
    rfl

/-- Witness for C3 at 01:00:00.000000. -/
theorem claim_C3_witness :
    USTimeZone.tzname true Eastern
      (some ⟨2002, 10, 27, 1, 0, 0, 0, some (Tzinfo.us Eastern)⟩) = .ok "EST" :=
  (claim_C3 true 0 0 0 (by norm_num) (by norm_num) (by norm_num)).2.2

/-- C4: every Eastern-tagged datetime on 2002-04-07 with wall-clock hour 2
(the spring-forward gap hour) resolves to DST: one-hour delta, UTC offset
-04:00 (-14400 s), name "EDT". -/
theorem claim_C4 (debug : Bool) (mi s u : Nat)
    (hmi : mi ≤ 59) (hs : s ≤ 59) (hu : u ≤ 999999) :
    USTimeZone.dst debug Eastern
      (some ⟨2002, 4, 7, 2, mi, s, u, some (Tzinfo.us Eastern)⟩) = .ok 3600 ∧
    USTimeZone.utcoffset debug Eastern
      (some ⟨2002, 4, 7, 2, mi, s, u, some (Tzinfo.us Eastern)⟩) = .ok (-14400) ∧
    USTimeZone.tzname debug Eastern
      (some ⟨2002, 4, 7, 2, mi, s, u, some (Tzinfo.us Eastern)⟩) = .ok "EDT" := by
  have hd := dst_eval debug Eastern
    ⟨2002, 4, 7, 2, mi, s, u, some (Tzinfo.us Eastern)⟩ rfl
  have hsel : selectGen 2002 = some (1987, DST_Start APRIL 0, DST_End OCTOBER (-1)) := by
    rw [selectGen_eq]
    norm_num
  have hstart : genTransition (DST_Start APRIL 0) 2002 =
      ⟨2002, 4, 7, 2, 0, 0, 0, none⟩ := by decide
  have hend : genTransition (DST_End OCTOBER (-1)) 2002 =
      ⟨2002, 10, 27, 1, 0, 0, 0, none⟩ := by decide
  have hval : dstVal ⟨2002, 4, 7, 2, mi, s, u, some (Tzinfo.us Eastern)⟩ = 3600 := by
    unfold dstVal
    dsimp only
    rw [hsel]
    dsimp only
    rw [hstart, hend]
    have hle : natLexLe [2002, 4, 7, 2, 0, 0, 0] [2002, 4, 7, 2, mi, s, u] = true := by
      unfold natLexLe
      rw [natLexLt_pad 2002 4 7 2 mi s u]
      rfl
    have hlt : natLexLt [2002, 4, 7, 2, mi, s, u] [2002, 10, 27, 1, 0, 0, 0] = true :=
      natLexLt_snd 2002 4 10 [7, 2, mi, s, u] [27, 1, 0, 0, 0] (by norm_num)
    show (if (natLexLe [2002, 4, 7, 2, 0, 0, 0] [2002, 4, 7, 2, mi, s, u] &&
        natLexLt [2002, 4, 7, 2, mi, s, u] [2002, 10, 27, 1, 0, 0, 0]) = true
      then (3600 : Int) else 0) = 3600
    rw [hle, hlt]
    rfl
  rw [hval] at hd
  refine ⟨hd, ?_, ?_⟩
  · simp only [USTimeZone.utcoffset, hd]
    norm_num [Eastern]
  · simp only [USTimeZone.tzname, hd]
    rfl

/-- Witness for C4 at 02:00:00.000000. -/
theorem claim_C4_witness :
    USTimeZone.tzname true Eastern
      (some ⟨2002, 4, 7, 2, 0, 0, 0, some (Tzinfo.us Eastern)⟩) = .ok "EDT" :=
  (claim_C4 true 0 0 0 (by norm_num) (by norm_num) (by norm_num)).2.2

/-- C5: generation selection picks the entry with the greatest first valid
year at most the query year (2007 generation for years from 2007, 1987
generation for 1987..2006); for older years no generation is selected and
resolution returns a zero delta, so the zone acts as fixed-offset. -/
theorem claim_C5 :
    (∀ y : Nat, 2007 ≤ y →
      selectGen y = some (2007, DST_Start MARCH 1, DST_End NOVEMBER 0)) ∧
    (∀ y : Nat, 1987 ≤ y → y ≤ 2006 →
      selectGen y = some (1987, DST_Start APRIL 0, DST_End OCTOBER (-1))) ∧
    (∀ (y : Nat) (g : Gen), selectGen y = some g →
      g.1 ≤ y ∧ ∀ g2 ∈ USTimeZone.dst_rules, g2.1 ≤ y → g2.1 ≤ g.1) ∧
    (∀ y : Nat, y < 1987 → selectGen y = none) ∧
    (∀ (debug : Bool) (self : USTimeZone) (dt : DateTime),
      dt.tzinfo = some (Tzinfo.us self) → dt.year < 1987 →
      USTimeZone.dst debug self (some dt) = .ok 0 ∧
      USTimeZone.utcoffset debug self (some dt) = .ok (self.stdhours * 3600)) := by
  have hr : USTimeZone.dst_rules =
      [(2007, DST_Start MARCH 1, DST_End NOVEMBER 0),
       (1987, DST_Start APRIL 0, DST_End OCTOBER (-1))] := rfl
  refine ⟨?_, ?_, ?_, ?_, ?_⟩
  · intro y hy
    rw [selectGen_eq, if_pos hy]
  · intro y hy1 hy2
    rw [selectGen_eq, if_neg (by omega), if_pos hy1]
  · intro y g hg
    rw [selectGen_eq] at hg
    by_cases h07 : 2007 ≤ y
    · rw [if_pos h07] at hg
      cases hg
      refine ⟨h07, ?_⟩
      intro g2 hg2 hle
      rw [hr] at hg2
      simp only [List.mem_cons, List.not_mem_nil, or_false] at hg2
      rcases hg2 with rfl | rfl
      · exact le_rfl
      · norm_num
    · rw [if_neg h07] at hg
      by_cases h87 : 1987 ≤ y
      · rw [if_pos h87] at hg
        cases hg
        refine ⟨h87, ?_⟩
        intro g2 hg2 hle
        rw [hr] at hg2
        simp only [List.mem_cons, List.not_mem_nil, or_false] at hg2
        rcases hg2 with rfl | rfl
        · dsimp only at hle
          omega
        · exact le_rfl
      · rw [if_neg h87] at hg
        cases hg
  · intro y hy
    rw [selectGen_eq, if_neg (by omega), if_neg (by omega)]
  · intro debug self dt htz hy
    have hd := dst_eval debug self dt htz
    have hval : dstVal dt = 0 := by
      unfold dstVal
      rw [selectGen_eq, if_neg (by omega), if_neg (by omega)]
    rw [hval] at hd
    refine ⟨hd, ?_⟩
    simp only [USTimeZone.utcoffset, hd]
    norm_num

/-- Witness for C5 at year 2010. -/
theorem claim_C5_witness :
    selectGen 2010 = some (2007, DST_Start MARCH 1, DST_End NOVEMBER 0) :=
  claim_C5.1 2010 (by norm_num)

/-- C6 counterexample: handing the class body the generations in ascending
order does not fail; the `sort(reverse=True)` step silently reorders the
table into descending order. -/
theorem claim_C6_cex :
    rulesCtor [(1987, DST_Start APRIL 0, DST_End OCTOBER (-1)),
               (2007, DST_Start MARCH 1, DST_End NOVEMBER 0)] =
      .ok [(2007, DST_Start MARCH 1, DST_End NOVEMBER 0),
           (1987, DST_Start APRIL 0, DST_End OCTOBER (-1))] ∧
    ([(1987, DST_Start APRIL 0, DST_End OCTOBER (-1)),
      (2007, DST_Start MARCH 1, DST_End NOVEMBER 0)] : List Gen) ≠
      [(2007, DST_Start MARCH 1, DST_End NOVEMBER 0),
       (1987, DST_Start APRIL 0, DST_End OCTOBER (-1))] ∧
    (∀ e : Unit,
      rulesCtor [(1987, DST_Start APRIL 0, DST_End OCTOBER (-1)),
                 (2007, DST_Start MARCH 1, DST_End NOVEMBER 0)] ≠ .error e) := by
  refine ⟨rfl, by decide, ?_⟩
  intro e h
  cases h

/-- C6 (amended): construction of the rule table never fails; the class
body sorts the list in place, so any input ordering is silently corrected
to a descending-by-first-year permutation of the input, and the module's
table is exactly the sorted literal table. -/
theorem claim_C6 (l : List Gen) :
    ∃ l2 : List Gen, rulesCtor l = .ok l2 ∧ isSortedDescGen l2 = true ∧
      List.Perm l2 l ∧ USTimeZone.dst_rules = sortGenDesc dst_rules_raw :=
  ⟨sortGenDesc l, rfl, sortGenDesc_sorted l, sortGenDesc_perm l, rfl⟩

/-- C7 (amended): with assertions enabled a zone-tag mismatch fails fast in
both resolvers, but with assertions disabled (`python -O`) resolution
always silently returns an offset computed from the queried zone's rules. -/
theorem claim_C7 :
    (∀ (self : USTimeZone) (dt : DateTime) (t : Tzinfo),
      dt.tzinfo = some t → t ≠ Tzinfo.us self →
      USTimeZone.dst true self (some dt) = .error ()) ∧
    (∀ (self : Europe) (dt : DateTime) (t : Tzinfo),
      dt.tzinfo = some t → t ≠ Tzinfo.eu self →
      Europe.dst true self (some dt) = .error ()) ∧
    (∀ (self : USTimeZone) (odt : Option DateTime), ∃ v : Int,
      USTimeZone.dst false self odt = .ok v) ∧
    (∀ (self : Europe) (odt : Option DateTime), ∃ v : Int,
      Europe.dst false self odt = .ok v) :=
  ⟨fun self dt t htz hne => dst_mismatch_us self dt t htz hne,
   fun self dt t htz hne => dst_mismatch_eu self dt t htz hne,
   fun self odt => dst_false_ok self odt,
   fun self odt => eu_dst_false_ok self odt⟩

/-- Witness for C7: an Eastern-tagged noon queried against Pacific. -/
theorem claim_C7_witness :
    USTimeZone.dst true Pacific
      (some ⟨2002, 6, 1, 12, 0, 0, 0, some (Tzinfo.us Eastern)⟩) = .error () ∧
    (∃ v : Int, USTimeZone.dst false Pacific
      (some ⟨2002, 6, 1, 12, 0, 0, 0, some (Tzinfo.us Eastern)⟩) = .ok v) :=
  ⟨claim_C7.1 Pacific ⟨2002, 6, 1, 12, 0, 0, 0, some (Tzinfo.us Eastern)⟩
      (Tzinfo.us Eastern) rfl
      (by
        intro h
        injection h with h2
        exact absurd (congrArg USTimeZone.stdhours h2) (by decide)),
   claim_C7.2.2.1 Pacific
      (some ⟨2002, 6, 1, 12, 0, 0, 0, some (Tzinfo.us Eastern)⟩)⟩

/-- C7 counterexample: with assertions disabled, querying Pacific with an
Eastern-tagged datetime silently returns Pacific's offset (-25200 s), not
an error, and not Eastern's own offset (-14400 s): the claim that no build
silently produces a wrong-zone offset is false. -/
theorem claim_C7_cex :
    (⟨2002, 6, 1, 12, 0, 0, 0, some (Tzinfo.us Eastern)⟩ : DateTime).tzinfo =
      some (Tzinfo.us Eastern) ∧
    Eastern.stdhours ≠ Pacific.stdhours ∧
    USTimeZone.utcoffset false Pacific
      (some ⟨2002, 6, 1, 12, 0, 0, 0, some (Tzinfo.us Eastern)⟩) = .ok (-25200) ∧
    USTimeZone.utcoffset false Eastern
      (some ⟨2002, 6, 1, 12, 0, 0, 0, some (Tzinfo.us Eastern)⟩) = .ok (-14400) := by
  refine ⟨rfl, by decide, by decide, by decide⟩

/-- C8: for index 0 the nth-weekday search stays in days 1..7 of the target
month and for index -1 in its last seven days, for every year, month and
weekday; hence the transition dates land on Sundays in the expected day
ranges of the rules' months, every defensive assertion in resolution holds,
and resolution never raises for a well-formed tagged timestamp. -/
theorem claim_C8 :
    (∀ (w : Nat) (dt : DateTime), w < 7 →
      (weekday_of_month w dt 0).year = dt.year ∧
      (weekday_of_month w dt 0).month = dt.month ∧
      1 ≤ (weekday_of_month w dt 0).day ∧ (weekday_of_month w dt 0).day ≤ 7 ∧
      (weekday_of_month w dt 0).weekday = w) ∧
    (∀ (w : Nat) (dt : DateTime), w < 7 → 1 ≤ dt.month → dt.month ≤ 12 →
      (weekday_of_month w dt (-1)).year = dt.year ∧
      (weekday_of_month w dt (-1)).month = dt.month ∧
      monthLength dt.year dt.month - 6 ≤ (weekday_of_month w dt (-1)).day ∧
      (weekday_of_month w dt (-1)).day ≤ monthLength dt.year dt.month ∧
      (weekday_of_month w dt (-1)).weekday = w) ∧
    (∀ y : Nat, ∃ d : Nat, 8 ≤ d ∧ d ≤ 14 ∧
      genTransition (DST_Start MARCH 1) y = ⟨y, 3, d, 2, 0, 0, 0, none⟩ ∧
      weekdayN y 3 d = 6) ∧
    (∀ y : Nat, ∃ d : Nat, 1 ≤ d ∧ d ≤ 7 ∧
      genTransition (DST_End NOVEMBER 0) y = ⟨y, 11, d, 1, 0, 0, 0, none⟩ ∧
      weekdayN y 11 d = 6) ∧
    (∀ y : Nat, ∃ d : Nat, 1 ≤ d ∧ d ≤ 7 ∧
      genTransition (DST_Start APRIL 0) y = ⟨y, 4, d, 2, 0, 0, 0, none⟩ ∧
      weekdayN y 4 d = 6) ∧
    (∀ y : Nat, ∃ d : Nat, 25 ≤ d ∧ d ≤ 31 ∧
      genTransition (DST_End OCTOBER (-1)) y = ⟨y, 10, d, 1, 0, 0, 0, none⟩ ∧
      weekdayN y 10 d = 6) ∧
    (∀ (debug : Bool) (self : USTimeZone) (dt : DateTime),
      dt.tzinfo = some (Tzinfo.us self) →
      ∃ v : Int, USTimeZone.dst debug self (some dt) = .ok v) ∧
    (∀ (debug : Bool) (self : Europe) (dt : DateTime),
      dt.tzinfo = some (Tzinfo.eu self) →
      ∃ v : Int, Europe.dst debug self (some dt) = .ok v) := by
  refine ⟨?_, ?_, start2007_spec, end2007_spec, start1987_spec, end1987_spec, ?_, ?_⟩
  · intro w dt hw
    obtain ⟨d, h1, h2, heq, hwk⟩ := wom_zero_spec w hw dt
    rw [heq]
    exact ⟨rfl, rfl, h1, h2, hwk⟩
  · intro w dt hw hm1 hm2
    obtain ⟨d, h1, h2, heq, hwk⟩ := wom_neg_one_spec w hw dt hm1 hm2
    rw [heq]
    exact ⟨rfl, rfl, h1, h2, hwk⟩
  · intro debug self dt htz
    exact ⟨dstVal dt, dst_eval debug self dt htz⟩
  · intro debug self dt htz
    exact ⟨_, eu_dst_eval debug self dt htz⟩

/-- Witness for C8: US resolution succeeds on a concrete tagged datetime. -/
theorem claim_C8_witness :
    ∃ v : Int, USTimeZone.dst true Eastern
      (some ⟨2002, 4, 7, 2, 0, 0, 0, some (Tzinfo.us Eastern)⟩) = .ok v :=
  claim_C8.2.2.2.2.2.2.1 true Eastern
    ⟨2002, 4, 7, 2, 0, 0, 0, some (Tzinfo.us Eastern)⟩ rfl

/-- C9: Sundays of November 2002 as seen by `weekday_of_month` for indices
0..4 are Nov 3, 10, 17, 24 and Dec 1 (spilling into December), and for
indices -1..-5 are Nov 24, 17, 10, 3 and Oct 27 (spilling into October);
in general a non-negative index advances the first matching weekday on or
after day 1 by that many whole weeks, and a negative index steps the first
matching weekday on or before the month's last day back by one fewer weeks
than its magnitude. -/
theorem claim_C9 :
    (weekday_of_month 6 ⟨2002, 11, 25, 13, 22, 44, 0, none⟩ 0 =
        ⟨2002, 11, 3, 13, 22, 44, 0, none⟩ ∧
      weekday_of_month 6 ⟨2002, 11, 25, 13, 22, 44, 0, none⟩ 1 =
        ⟨2002, 11, 10, 13, 22, 44, 0, none⟩ ∧
      weekday_of_month 6 ⟨2002, 11, 25, 13, 22, 44, 0, none⟩ 2 =
        ⟨2002, 11, 17, 13, 22, 44, 0, none⟩ ∧
      weekday_of_month 6 ⟨2002, 11, 25, 13, 22, 44, 0, none⟩ 3 =
        ⟨2002, 11, 24, 13, 22, 44, 0, none⟩ ∧
      weekday_of_month 6 ⟨2002, 11, 25, 13, 22, 44, 0, none⟩ 4 =
        ⟨2002, 12, 1, 13, 22, 44, 0, none⟩ ∧
      weekday_of_month 6 ⟨2002, 11, 25, 13, 22, 44, 0, none⟩ (-1) =
        ⟨2002, 11, 24, 13, 22, 44, 0, none⟩ ∧
      weekday_of_month 6 ⟨2002, 11, 25, 13, 22, 44, 0, none⟩ (-2) =
        ⟨2002, 11, 17, 13, 22, 44, 0, none⟩ ∧
      weekday_of_month 6 ⟨2002, 11, 25, 13, 22, 44, 0, none⟩ (-3) =
        ⟨2002, 11, 10, 13, 22, 44, 0, none⟩ ∧
      weekday_of_month 6 ⟨2002, 11, 25, 13, 22, 44, 0, none⟩ (-4) =
        ⟨2002, 11, 3, 13, 22, 44, 0, none⟩ ∧
      weekday_of_month 6 ⟨2002, 11, 25, 13, 22, 44, 0, none⟩ (-5) =
        ⟨2002, 10, 27, 13, 22, 44, 0, none⟩) ∧
    ((∀ (w : Nat) (dt : DateTime) (i : Int), 0 ≤ i →
        weekday_of_month w dt i =
          shiftDays (7 * i) (first_weekday_on_or_after w { dt with day := 1 })) ∧
      (∀ (w : Nat) (dt : DateTime) (i : Int), i < 0 →
        weekday_of_month w dt i =
          subDays (7 * (-(1 + i))).toNat
            (first_weekday_on_or_before w { dt with day := days_in_month dt }))) := by
  refine ⟨⟨by decide, by decide, by decide, by decide, by decide, by decide,
    by decide, by decide, by decide, by decide⟩, ?_, ?_⟩
  · exact wom_nonneg
  · intro w dt i hi
    rw [wom_neg w dt i hi, shiftDays_nonpos (7 * (1 + i)) (by omega)]
    have harg : -(7 * (1 + i)) = 7 * (-(1 + i)) := by ring
    rw [harg]

/-- Witness for C9: the general positive-index form at index 2. -/
theorem claim_C9_witness :
    weekday_of_month 6 ⟨2002, 11, 25, 13, 22, 44, 0, none⟩ 2 =
      shiftDays (7 * 2) (first_weekday_on_or_after 6
        { (⟨2002, 11, 25, 13, 22, 44, 0, none⟩ : DateTime) with day := 1 }) :=
  claim_C9.2.1 6 ⟨2002, 11, 25, 13, 22, 44, 0, none⟩ 2 (by norm_num)

/-- C10: the weekday-search helpers change only the date fields: hour,
minute, second, microsecond and tzinfo always survive unchanged, which is
what lets `DST_Rules.date` carry the rule's transition hour (stored in its
dummy date) into the returned transition date-time. -/
theorem claim_C10 :
    (∀ (w : Nat) (dt : DateTime),
      timeOf (first_weekday_on_or_after w dt) = timeOf dt) ∧
    (∀ (w : Nat) (dt : DateTime),
      timeOf (first_weekday_on_or_before w dt) = timeOf dt) ∧
    (∀ (w : Nat) (dt : DateTime) (i : Int),
      timeOf (weekday_of_month w dt i) = timeOf dt) ∧
    (∀ (r : DST_Rules) (y : Nat),
      (genTransition r y).hour = r.hour ∧ (genTransition r y).minute = 0 ∧
      (genTransition r y).second = 0 ∧ (genTransition r y).microsecond = 0 ∧
      (genTransition r y).tzinfo = none) ∧
    (∀ (debug : Bool) (r : DST_Rules) (y : Nat) (d : DateTime),
      DST_Rules.date debug r y = .ok d → d.hour = r.hour) := by
  refine ⟨timeOf_fwoa, timeOf_fwob, timeOf_wom, ?_, ?_⟩
  · intro r y
    have h := genTransition_time r y
    exact ⟨congrArg (fun p => p.1) h, congrArg (fun p => p.2.1) h,
      congrArg (fun p => p.2.2.1) h, congrArg (fun p => p.2.2.2.1) h,
      congrArg (fun p => p.2.2.2.2) h⟩
  · intro debug r y d h
    unfold DST_Rules.date guardE at h
    split at h
    · cases h
    · cases h
      exact genTransition_hour r y

/-- Witness for C10: the hour of a concretely computed transition date. -/
theorem claim_C10_witness :
    (⟨2002, 4, 7, 2, 0, 0, 0, none⟩ : DateTime).hour = (DST_Start APRIL 0).hour :=
  claim_C10.2.2.2.2 true (DST_Start APRIL 0) 2002
    ⟨2002, 4, 7, 2, 0, 0, 0, none⟩ (by decide)

end Datetimeng

